import Mathlib

/-!
# Bootstrap loader (`src/test6/index.js`)

The script registers one `load` listener on `window`.  The listener body is

```
if (typeof wasm_bindgen === 'undefined') {
  console.error('wasm_bindgen is not defined55555555');
  return;
}
const { run } = wasm_bindgen;
wasm_bindgen('./pkg/shared_memory_bg.wasm').then(run).catch(console.error);
```

The global `wasm_bindgen`, the loader call, the promise it returns and the
entry point `run` are collaborators outside the script, so they are inputs of
the embedding.  An execution is the ordered list of observable events of the
synchronous body, the completion of that body, and the events of the promise
reactions that run after the body has returned, together with the final state
of the promise that `.catch` returns: a promise left rejected with no handler
is an unhandled rejection, which the host reports.
-/

namespace Bootstrap

/-- First-order JavaScript data: what promises settle with and what is logged.
In `error name msg` the name is the error class; the message of an error
raised by the engine stands for the text of that engine. -/
inductive Value where
  | undefined
  | null
  | bool (b : Bool)
  | num (n : Int)
  | str (s : String)
  | obj (id : Nat)
  | error (name : String) (msg : String)
  deriving DecidableEq, Repr

/-- State of a native promise as seen by its reactions. -/
inductive Settlement where
  | fulfilled (r : Value)
  | rejected (e : Value)
  | pending
  deriving DecidableEq, Repr

/-- Result of calling the global binding with one argument. -/
inductive CallOutcome where
  | throws (e : Value)
  | value (v : Value)
  | promise (s : Settlement)
  deriving DecidableEq, Repr

/-- Result of calling the entry point with one argument. -/
inductive RunOutcome where
  | returns (v : Value)
  | throws (e : Value)
  | promise (s : Settlement)
  deriving DecidableEq, Repr

/-- The value a read of the property `run` completes with: nothing, a value
that is not callable, or a function.  A read that throws instead is the
`accessor` case of `Binding`. -/
inductive RunProp where
  | absent
  | data (v : Value)
  | fn (f : Value → RunOutcome)

/-- Primitive values a global can hold besides `undefined` and `null`. -/
inductive Prim where
  | bool (b : Bool)
  | num (n : Int)
  | str (s : String)
  deriving DecidableEq, Repr

/-- The global `wasm_bindgen` at trigger time.

* `object run` and `function run call` are a plain object and a callable on
  which reading the property `run` completes with `run`.
* `accessor call e` is an object (`call = none`) or a callable on which
  reading `run` throws `e`: an accessor property whose getter throws, or a
  Proxy whose `get` trap throws.
* `htmlDDA run call` is an object with the `[[IsHTMLDDA]]` internal slot, such
  as `document.all`: it is callable and has properties, and `typeof` gives
  `"undefined"` for it. -/
inductive Binding where
  | undeclared
  | undefined
  | null
  | primitive (p : Prim)
  | object (run : RunProp)
  | function (run : RunProp) (call : String → CallOutcome)
  | accessor (call : Option (String → CallOutcome)) (e : Value)
  | htmlDDA (run : RunProp) (call : String → CallOutcome)

/-- Observable events, in program order. -/
inductive Event where
  | readRun
  | loaderCall (path : String)
  | loadFulfilled (r : Value)
  | loadRejected (e : Value)
  | runCall (arg : Value)
  | consoleError (arg : Value)
  deriving DecidableEq, Repr

/-- How the synchronous handler body ends. -/
inductive Completion where
  | normal
  | throw (e : Value)
  deriving DecidableEq, Repr

/-- One run of the handler body together with its promise reactions.  The
field `chain` is the final state of the promise returned by `.catch(...)`, the
last promise of the chain and the only one without a reaction attached; it is
`none` when the body ends before the chain is built. -/
structure Execution where
  sync : List Event
  completion : Completion
  async : List Event
  chain : Option Settlement
  deriving DecidableEq, Repr

/-- All events of an execution, in order. -/
def Execution.trace (x : Execution) : List Event := x.sync ++ x.async

/-- What reaches the host environment: the exception of a body that completes
abruptly, and the reason of a chain promise that ends rejected (an unhandled
rejection). -/
def Execution.escaped (x : Execution) : List Value :=
  (match x.completion with
    | .throw e => [e]
    | .normal => []) ++
  (match x.chain with
    | some (.rejected e) => [e]
    | _ => [])

/-- The operator `typeof` applied to the global; an unresolvable name gives
`"undefined"` without throwing. -/
def typeofBinding : Binding → String
  | .undeclared => "undefined"
  | .undefined => "undefined"
  | .null => "object"
  | .primitive (.bool _) => "boolean"
  | .primitive (.num _) => "number"
  | .primitive (.str _) => "string"
  | .object _ => "object"
  | .function _ _ => "function"
  | .accessor none _ => "object"
  | .accessor (some _) _ => "function"
  | .htmlDDA _ _ => "undefined"

/-- The call `console.error(v)`: one entry on the error log. -/
def consoleError (v : Value) : List Event := [.consoleError v]

/-- The diagnostic text of the missing-collaborator branch. -/
def notDefinedMessage : String := "wasm_bindgen is not defined55555555"

/-- The path literal passed to the loader. -/
def artifactPath : String := "./pkg/shared_memory_bg.wasm"

/-- The statement `const { run } = wasm_bindgen`: the events of the statement
and its result.  Destructuring `null` (or `undefined`) throws before any
property is read; otherwise `run` is read, and the read itself can throw. -/
def destructureRun : Binding → List Event × Except Value RunProp
  | .undeclared => ([], .error (.error "ReferenceError" "wasm_bindgen is not defined"))
  | .undefined => ([], .error (.error "TypeError" "cannot destructure undefined"))
  | .null => ([], .error (.error "TypeError" "cannot destructure null"))
  | .primitive _ => ([.readRun], .ok .absent)
  | .object run => ([.readRun], .ok run)
  | .function run _ => ([.readRun], .ok run)
  | .accessor _ e => ([.readRun], .error e)
  | .htmlDDA run _ => ([.readRun], .ok run)

/-- Whether the read of `run` in the destructuring completes normally. -/
def runReadable (b : Binding) : Bool :=
  match (destructureRun b).2 with
  | .ok _ => true
  | .error _ => false

/-- The call `wasm_bindgen(path)`: only a callable value can be called. -/
def callBinding (b : Binding) (path : String) : Except Value (List Event × CallOutcome) :=
  match b with
  | .function _ call => .ok ([.loaderCall path], call path)
  | .accessor (some call) _ => .ok ([.loaderCall path], call path)
  | .htmlDDA _ call => .ok ([.loaderCall path], call path)
  | _ => .error (.error "TypeError" "wasm_bindgen is not a function")

/-- What `onFulfilled` does when handed `r`: a non-callable handler is skipped. -/
def RunProp.react : RunProp → Value → Option RunOutcome
  | .fn f, r => some (f r)
  | _, _ => none

/-- The promise `p.then(run)`: events of the reaction and the state of the
derived promise. -/
def promiseThen (p : Settlement) (run : RunProp) : List Event × Settlement :=
  match p with
  | .fulfilled r =>
    match run.react r with
    | some (.returns v) => ([.runCall r], .fulfilled v)
    | some (.throws e) => ([.runCall r], .rejected e)
    | some (.promise s) => ([.runCall r], s)
    | none => ([], .fulfilled r)
  | .rejected e => ([], .rejected e)
  | .pending => ([], .pending)

/-- The promise `p.catch(onRejected)` where the handler returns `undefined`. -/
def promiseCatch (p : Settlement) (onRejected : Value → List Event) : List Event × Settlement :=
  match p with
  | .rejected e => (onRejected e, .fulfilled .undefined)
  | .fulfilled v => ([], .fulfilled v)
  | .pending => ([], .pending)

/-- Settlement of the promise returned by the loader. -/
def settleEvents : Settlement → List Event
  | .fulfilled r => [.loadFulfilled r]
  | .rejected e => [.loadRejected e]
  | .pending => []

/-- The arrow function registered for `load`. -/
def handler (wasm_bindgen : Binding) : Execution :=
  if typeofBinding wasm_bindgen = "undefined" then
    { sync := consoleError (.str notDefinedMessage), completion := .normal, async := [],
      chain := none }
  else
    match destructureRun wasm_bindgen with
    | (ev1, .error e) => { sync := ev1, completion := .throw e, async := [], chain := none }
    | (ev1, .ok run) =>
      match callBinding wasm_bindgen artifactPath with
      | .error e => { sync := ev1, completion := .throw e, async := [], chain := none }
      | .ok (ev2, .throws e) =>
        { sync := ev1 ++ ev2, completion := .throw e, async := [], chain := none }
      | .ok (ev2, .value _) =>
        { sync := ev1 ++ ev2, completion := .throw (.error "TypeError" "then is not a function"),
          async := [], chain := none }
      | .ok (ev2, .promise p) =>
        let t := promiseThen p run
        let c := promiseCatch t.2 consoleError
        { sync := ev1 ++ ev2, completion := .normal, async := settleEvents p ++ t.1 ++ c.1,
          chain := some c.2 }

/-- Arguments of the loader calls of a trace, in order. -/
def loaderCalls (t : List Event) : List String :=
  t.filterMap fun e => match e with
    | .loaderCall p => some p
    | _ => none

/-- Arguments of the entry-point invocations of a trace, in order. -/
def runCalls (t : List Event) : List Value :=
  t.filterMap fun e => match e with
    | .runCall a => some a
    | _ => none

/-- Arguments of the `console.error` entries of a trace, in order. -/
def logs (t : List Event) : List Value :=
  t.filterMap fun e => match e with
    | .consoleError a => some a
    | _ => none

/-- The failure value of an entry-point outcome: a throw or a rejected promise. -/
def RunOutcome.failure : RunOutcome → Option Value
  | .throws e => some e
  | .promise (.rejected e) => some e
  | _ => none

/-- A DOM event as far as dispatch is concerned. -/
structure DomEvent where
  type : String
  deriving DecidableEq, Repr

/-- One registered listener. -/
structure Listener where
  type : String
  callback : DomEvent → Binding → Execution
  once : Bool

/-- The event target `window`. -/
structure Window where
  listeners : List Listener

/-- The method `addEventListener(type, callback)` with default options, so
`once` is false. -/
def addEventListener (w : Window) (type : String)
    (callback : DomEvent → Binding → Execution) : Window :=
  { listeners := w.listeners ++ [{ type := type, callback := callback, once := false }] }

/-- The listener of the script: it takes no parameter, so the event is ignored. -/
def onLoad (_ev : DomEvent) (wasm_bindgen : Binding) : Execution := handler wasm_bindgen

/-- The top level of the script. -/
def script (w : Window) : Window := addEventListener w "load" onLoad

/-- Dispatch of one event: every listener of that type runs with the global
state of that moment; listeners registered with `once` are then removed. -/
def dispatchEvent (w : Window) (ev : DomEvent) (g : Binding) : Window × List Execution :=
  ({ listeners := w.listeners.filter fun l => !(decide (l.type = ev.type) && l.once) },
   (w.listeners.filter fun l => decide (l.type = ev.type)).map fun l => l.callback ev g)

/-- Delivery of a sequence of events, each with the global of its moment. -/
def deliver (w : Window) : List (DomEvent × Binding) → List Execution
  | [] => []
  | (ev, g) :: rest => (dispatchEvent w ev g).2 ++ deliver (dispatchEvent w ev g).1 rest

/-- One page lifetime: the script runs on a fresh window, then events arrive. -/
def pageLifetime (evs : List (DomEvent × Binding)) : List Execution :=
  deliver (script { listeners := [] }) evs

/-- Number of `load` events in a delivery sequence. -/
def loadCount (evs : List (DomEvent × Binding)) : Nat :=
  (evs.filter fun p => decide (p.1.type = "load")).length

example : (handler .undeclared).trace = [.consoleError (.str notDefinedMessage)] := by decide
example : (handler .null).completion = .throw (.error "TypeError" "cannot destructure null") := by decide
example : (handler (.accessor (some fun _ => .promise .pending) (.error "RangeError" "x"))).trace
    = [.readRun] := by decide
example : (handler (.accessor (some fun _ => .promise .pending) (.error "RangeError" "x"))).escaped
    = [.error "RangeError" "x"] := by decide
example : (handler (.htmlDDA .absent fun _ => .value .null)).trace
    = [.consoleError (.str notDefinedMessage)] := by decide
example : (handler (.function .absent fun _ => .promise (.fulfilled (.obj 1)))).trace
    = [.readRun, .loaderCall artifactPath, .loadFulfilled (.obj 1)] := by decide
example : (handler (.function (.fn fun _ => .throws (.num 3)) fun _ => .promise (.fulfilled (.obj 1)))).trace
    = [.readRun, .loaderCall artifactPath, .loadFulfilled (.obj 1), .runCall (.obj 1),
       .consoleError (.num 3)] := by decide

/-- The handler on a callable binding, by outcome of the loader call. -/
theorem handler_function (run : RunProp) (call : String → CallOutcome) :
    handler (.function run call) =
      match call artifactPath with
      | .throws e =>
        { sync := [.readRun, .loaderCall artifactPath], completion := .throw e, async := [],
          chain := none }
      | .value _ =>
        { sync := [.readRun, .loaderCall artifactPath],
          completion := .throw (.error "TypeError" "then is not a function"), async := [],
          chain := none }
      | .promise p =>
        { sync := [.readRun, .loaderCall artifactPath], completion := .normal,
          async := settleEvents p ++ (promiseThen p run).1 ++
            (promiseCatch (promiseThen p run).2 consoleError).1,
          chain := some (promiseCatch (promiseThen p run).2 consoleError).2 } := by
  simp only [handler, typeofBinding, destructureRun, callBinding]
  cases call artifactPath <;> simp

/-- The handler on a primitive: `run` is read, then the call throws. -/
theorem handler_primitive (p : Prim) :
    handler (.primitive p) =
      { sync := [.readRun],
        completion := .throw (.error "TypeError" "wasm_bindgen is not a function"),
        async := [], chain := none } := by
  cases p <;> simp [handler, typeofBinding, destructureRun, callBinding]

/-- The handler on a non-callable object: `run` is read, then the call throws. -/
theorem handler_object (run : RunProp) :
    handler (.object run) =
      { sync := [.readRun],
        completion := .throw (.error "TypeError" "wasm_bindgen is not a function"),
        async := [], chain := none } := by
  simp [handler, typeofBinding, destructureRun, callBinding]

/-- The handler on a binding whose read of `run` throws: the read is the only
event, the exception leaves the body, and the binding is not called. -/
theorem handler_accessor (call : Option (String → CallOutcome)) (e : Value) :
    handler (.accessor call e) =
      { sync := [.readRun], completion := .throw e, async := [], chain := none } := by
  cases call <;> simp [handler, typeofBinding, destructureRun]

/-- The handler when `typeof` of the global is `"undefined"`. -/
theorem handler_undefined (b : Binding) (h : typeofBinding b = "undefined") :
    handler b =
      { sync := [.consoleError (.str notDefinedMessage)], completion := .normal, async := [],
        chain := none } := by
  simp [handler, h, consoleError]

/-- On a callable binding the handler depends on `run` only through its
reaction to the value the load fulfils with. -/
theorem handler_function_congr (run1 run2 : RunProp) (call1 call2 : String → CallOutcome)
    (hcall : call1 artifactPath = call2 artifactPath)
    (hrun : ∀ r, call1 artifactPath = .promise (.fulfilled r) → run1.react r = run2.react r) :
    handler (.function run1 call1) = handler (.function run2 call2) := by
  rw [handler_function, handler_function, ← hcall]
  cases hc : call1 artifactPath with
  | throws e => rfl
  | value v => rfl
  | promise p =>
    cases p with
    | rejected e => rfl
    | pending => rfl
    | fulfilled r =>
      have hr := hrun r hc
      simp only [promiseThen, hr]

/-- Dispatch on the window set up by the script: the listener stays
registered and the body runs once if the event is a `load` event. -/
theorem dispatch_on_script_window (ev : DomEvent) (g : Binding) :
    dispatchEvent (script { listeners := [] }) ev g =
      (script { listeners := [] }, if ev.type = "load" then [handler g] else []) := by
  by_cases h : ev.type = "load"
  · simp [dispatchEvent, script, addEventListener, onLoad, h]
  · have h2 : ¬ ("load" = ev.type) := fun h3 => h h3.symm
    simp [dispatchEvent, script, addEventListener, h, h2]

/-- Delivery on the window set up by the script: one run of the body, on the
global of that moment, for each `load` event of the sequence. -/
theorem deliver_on_script_window (evs : List (DomEvent × Binding)) :
    deliver (script { listeners := [] }) evs =
      (evs.filter fun p => decide (p.1.type = "load")).map fun p => handler p.2 := by
  induction evs with
  | nil => rfl
  | cons p rest ih =>
    obtain ⟨ev, g⟩ := p
    simp only [deliver, dispatch_on_script_window, ih]
    by_cases h : ev.type = "load"
    · simp [h, List.filter_cons]
    · simp [h, List.filter_cons]

/-- The handler when the load fulfils with `r` and a callable `run` does not
fail: the events, the completion, and nothing reaches the host. -/
theorem handler_fulfilled_ok (f : Value → RunOutcome) (call : String → CallOutcome) (r : Value)
    (hload : call artifactPath = .promise (.fulfilled r)) (hrun : (f r).failure = none) :
    (handler (.function (.fn f) call)).sync = [.readRun, .loaderCall artifactPath] ∧
    (handler (.function (.fn f) call)).completion = .normal ∧
    (handler (.function (.fn f) call)).async = [.loadFulfilled r, .runCall r] ∧
    (handler (.function (.fn f) call)).escaped = [] := by
  rw [handler_function, hload]
  simp only [promiseThen, RunProp.react, settleEvents, Execution.escaped]
  cases hfr : f r with
  | returns v => simp [promiseCatch]
  | throws e => simp [hfr, RunOutcome.failure] at hrun
  | promise s =>
    cases s with
    | fulfilled v => simp [promiseCatch]
    | rejected e => simp [hfr, RunOutcome.failure] at hrun
    | pending => simp [promiseCatch]

/-- The handler when the load fulfils with `r` and a callable `run` fails with `e`. -/
theorem handler_fulfilled_fail (f : Value → RunOutcome) (call : String → CallOutcome)
    (r e : Value) (hload : call artifactPath = .promise (.fulfilled r))
    (hrun : (f r).failure = some e) :
    handler (.function (.fn f) call) =
      { sync := [.readRun, .loaderCall artifactPath], completion := .normal,
        async := [.loadFulfilled r, .runCall r, .consoleError e],
        chain := some (.fulfilled .undefined) } := by
  rw [handler_function, hload]
  simp only [promiseThen, RunProp.react, settleEvents]
  cases hfr : f r with
  | returns v => simp [hfr, RunOutcome.failure] at hrun
  | throws e2 =>
    simp only [hfr, RunOutcome.failure, Option.some.injEq] at hrun
    simp [promiseCatch, consoleError, hrun]
  | promise s =>
    cases s with
    | fulfilled v => simp [hfr, RunOutcome.failure] at hrun
    | rejected e2 =>
      simp only [hfr, RunOutcome.failure, Option.some.injEq] at hrun
      simp [promiseCatch, consoleError, hrun]
    | pending => simp [hfr, RunOutcome.failure] at hrun

/-- The handler when the load rejects with `e`, whatever `run` is. -/
theorem handler_rejected (run : RunProp) (call : String → CallOutcome) (e : Value)
    (hload : call artifactPath = .promise (.rejected e)) :
    handler (.function run call) =
      { sync := [.readRun, .loaderCall artifactPath], completion := .normal,
        async := [.loadRejected e, .consoleError e],
        chain := some (.fulfilled .undefined) } := by
  rw [handler_function, hload]
  simp [promiseThen, promiseCatch, settleEvents, consoleError]

/-- C1: when the global is undefined at trigger time (no binding at all, or a
binding that holds undefined), the loader is never called, `run` is never
invoked, exactly one entry is written to `console.error`, its text contains
"not defined", nothing else happens, and the body completes normally. -/
theorem missing_collaborator_branch (b : Binding) (h : b = .undeclared ∨ b = .undefined) :
    loaderCalls (handler b).trace = [] ∧ runCalls (handler b).trace = [] ∧
    (∃ msg pre post, logs (handler b).trace = [.str msg] ∧
      msg = pre ++ "not defined" ++ post) ∧
    (handler b).trace.length = 1 ∧ (handler b).completion = .normal := by
  rcases h with rfl | rfl <;>
  exact ⟨by decide, by decide,
    ⟨notDefinedMessage, "wasm_bindgen is ", "55555555", by decide, by decide⟩,
    by decide, by decide⟩

/-- Witness of C1 at a global that was never declared. -/
theorem missing_collaborator_branch_witness :
    (Binding.undeclared = .undeclared ∨ Binding.undeclared = .undefined) ∧
    loaderCalls (handler .undeclared).trace = [] ∧
    (handler .undeclared).completion = .normal :=
  ⟨Or.inl rfl,
   (missing_collaborator_branch .undeclared (Or.inl rfl)).1,
   (missing_collaborator_branch .undeclared (Or.inl rfl)).2.2.2.2⟩

/-- C2: when the binding is a loader with a callable `run`, the load fulfils
with `r` and `run` neither throws nor returns a rejected promise, then `run`
is invoked exactly once, with argument `r`; the invocation is not part of the
synchronous body and every invocation in the trace comes after the event of
the load being fulfilled with `r`; no log entry is written and the body
completes normally. -/
theorem happy_path_runs_entry_once (f : Value → RunOutcome) (call : String → CallOutcome)
    (r : Value) (hload : call artifactPath = .promise (.fulfilled r))
    (hrun : (f r).failure = none) :
    runCalls (handler (.function (.fn f) call)).trace = [r] ∧
    runCalls (handler (.function (.fn f) call)).sync = [] ∧
    (∀ (i : Nat) (a : Value),
      (handler (.function (.fn f) call)).trace[i]? = some (Event.runCall a) →
      ∃ j : Nat, j < i ∧
        (handler (.function (.fn f) call)).trace[j]? = some (Event.loadFulfilled r)) ∧
    logs (handler (.function (.fn f) call)).trace = [] ∧
    (handler (.function (.fn f) call)).completion = .normal := by
  obtain ⟨hs, hc, ha, _⟩ := handler_fulfilled_ok f call r hload hrun
  refine ⟨by simp [Execution.trace, hs, ha, runCalls], by simp [hs, runCalls], ?_,
    by simp [Execution.trace, hs, ha, logs], hc⟩
  intro i a hi
  simp only [Execution.trace, hs, ha, List.cons_append, List.nil_append] at hi ⊢
  match i, hi with
  | 0, hi => simp at hi
  | 1, hi => simp at hi
  | 2, hi => simp at hi
  | 3, _ => exact ⟨2, by decide, by simp⟩
  | n + 4, hi => simp at hi

/-- Witness of C2: a loader that fulfils with object 7 and a `run` that returns. -/
theorem happy_path_runs_entry_once_witness :
    runCalls (handler (.function (.fn fun _ => .returns .undefined)
      fun _ => .promise (.fulfilled (.obj 7)))).trace = [.obj 7] ∧
    logs (handler (.function (.fn fun _ => .returns .undefined)
      fun _ => .promise (.fulfilled (.obj 7)))).trace = [] :=
  ⟨(happy_path_runs_entry_once (fun _ => .returns .undefined)
      (fun _ => .promise (.fulfilled (.obj 7))) (.obj 7) rfl rfl).1,
   (happy_path_runs_entry_once (fun _ => .returns .undefined)
      (fun _ => .promise (.fulfilled (.obj 7))) (.obj 7) rfl rfl).2.2.2.1⟩

/-- C3 as stated fails: a loader whose call throws synchronously.  The throw
happens before `.then` and `.catch` are reached, so the handler writes no log
entry and the exception leaves the handler and reaches the host. -/
theorem sync_loader_throw_escapes :
    typeofBinding (.function .absent fun _ => .throws (.error "Error" "boom")) ≠ "undefined" ∧
    logs (handler (.function .absent fun _ => .throws (.error "Error" "boom"))).trace = [] ∧
    (handler (.function .absent fun _ => .throws (.error "Error" "boom"))).completion
      = .throw (.error "Error" "boom") ∧
    (handler (.function .absent fun _ => .throws (.error "Error" "boom"))).escaped
      = [.error "Error" "boom"] ∧
    ¬ ((logs (handler (.function .absent fun _ =>
          .throws (.error "Error" "boom"))).trace).length = 1 ∧
       (handler (.function .absent fun _ => .throws (.error "Error" "boom"))).completion
         = .normal) := by
  decide

/-- C3 (amended): when the binding is a loader and the failure is in the
promise chain (the load promise rejects with `e`, or the load fulfils and the
entry point throws `e` or returns a promise that rejects with `e`), exactly
one entry is written to `console.error`, and no exception escapes the handler
to the host environment: the body completes normally, the promise returned by
`.catch` ends fulfilled, so there is no unhandled rejection, and nothing at
all reaches the host. -/
theorem async_failure_logged_once (run : RunProp) (call : String → CallOutcome) (e : Value)
    (h : call artifactPath = .promise (.rejected e) ∨
      ∃ r f, call artifactPath = .promise (.fulfilled r) ∧ run = .fn f ∧
        (f r).failure = some e) :
    logs (handler (.function run call)).trace = [e] ∧
    (handler (.function run call)).completion = .normal ∧
    (handler (.function run call)).chain = some (.fulfilled .undefined) ∧
    (handler (.function run call)).escaped = [] := by
  rcases h with h | ⟨r, f, hload, rfl, hrun⟩
  · rw [handler_rejected run call e h]
    exact ⟨by simp [Execution.trace, logs], rfl, rfl, rfl⟩
  · rw [handler_fulfilled_fail f call r e hload hrun]
    exact ⟨by simp [Execution.trace, logs], rfl, rfl, rfl⟩

/-- Witness of C3 (amended): the load fulfils and the entry point throws. -/
theorem async_failure_logged_once_witness :
    logs (handler (.function (.fn fun _ => .throws (.str "trap"))
      fun _ => .promise (.fulfilled (.obj 1)))).trace = [.str "trap"] ∧
    (handler (.function (.fn fun _ => .throws (.str "trap"))
      fun _ => .promise (.fulfilled (.obj 1)))).completion = .normal ∧
    (handler (.function (.fn fun _ => .throws (.str "trap"))
      fun _ => .promise (.fulfilled (.obj 1)))).chain = some (.fulfilled .undefined) ∧
    (handler (.function (.fn fun _ => .throws (.str "trap"))
      fun _ => .promise (.fulfilled (.obj 1)))).escaped = [] :=
  async_failure_logged_once (.fn fun _ => .throws (.str "trap"))
    (fun _ => .promise (.fulfilled (.obj 1))) (.str "trap")
    (Or.inr ⟨.obj 1, fun _ => .throws (.str "trap"), rfl, rfl, rfl⟩)

/-- C4: when the binding is a loader and the load rejects with `e`, `run` is
never invoked (whatever the `run` property is) and the only entry written to
`console.error` is `e` itself. -/
theorem load_rejection_logged_verbatim (run : RunProp) (call : String → CallOutcome)
    (e : Value) (hload : call artifactPath = .promise (.rejected e)) :
    runCalls (handler (.function run call)).trace = [] ∧
    logs (handler (.function run call)).trace = [e] := by
  rw [handler_rejected run call e hload]
  exact ⟨by simp [Execution.trace, runCalls], by simp [Execution.trace, logs]⟩

/-- Witness of C4: the fetch fails with a 404 error object. -/
theorem load_rejection_logged_verbatim_witness :
    runCalls (handler (.function (.fn fun _ => .returns .undefined)
      fun _ => .promise (.rejected (.error "TypeError" "404")))).trace = [] ∧
    logs (handler (.function (.fn fun _ => .returns .undefined)
      fun _ => .promise (.rejected (.error "TypeError" "404")))).trace
      = [.error "TypeError" "404"] :=
  load_rejection_logged_verbatim (.fn fun _ => .returns .undefined)
    (fun _ => .promise (.rejected (.error "TypeError" "404"))) (.error "TypeError" "404") rfl

/-- C5 as stated fails: `null` and a plain object without `run` both pass the
`typeof` guard (their `typeof` is "object"), so the binding is defined; on
`null` the destructuring throws, on the object the call throws because the
value is not callable, and in both executions no loader call is made. -/
theorem defined_binding_without_loader_call :
    typeofBinding .null ≠ "undefined" ∧
    loaderCalls (handler .null).trace = [] ∧
    ¬ ((loaderCalls (handler .null).trace).length = 1) ∧
    typeofBinding (.object .absent) ≠ "undefined" ∧
    loaderCalls (handler (.object .absent)).trace = [] ∧
    (∃ msg, (handler (.object .absent)).completion = .throw (.error "TypeError" msg)) :=
  ⟨by decide, by decide, by decide, by decide, by decide, ⟨_, rfl⟩⟩

/-- C5 (amended): for every binding that is callable (`typeof` is
"function") and on which reading `run` does not throw, whatever the `run`
property is and whatever the loader and the entry point do, the loader is
called exactly once and its argument is `./pkg/shared_memory_bg.wasm`; and for
every binding at all, the loader calls of the execution are none or that
single call, so no other path is ever requested. -/
theorem loader_called_once_with_fixed_path (b : Binding) :
    artifactPath = "./pkg/shared_memory_bg.wasm" ∧
    (typeofBinding b = "function" → runReadable b = true →
      loaderCalls (handler b).trace = [artifactPath]) ∧
    (loaderCalls (handler b).trace = [] ∨
      loaderCalls (handler b).trace = [artifactPath]) := by
  have hfn : ∀ (run : RunProp) (call : String → CallOutcome),
      loaderCalls (handler (.function run call)).trace = [artifactPath] := by
    intro run call
    rw [handler_function]
    cases call artifactPath with
    | throws e => simp [Execution.trace, loaderCalls]
    | value v => simp [Execution.trace, loaderCalls]
    | promise p =>
      cases p with
      | rejected e => simp [Execution.trace, loaderCalls, settleEvents, promiseThen, promiseCatch,
          consoleError]
      | pending => simp [Execution.trace, loaderCalls, settleEvents, promiseThen, promiseCatch]
      | fulfilled r =>
        cases run with
        | absent => simp [Execution.trace, loaderCalls, settleEvents, promiseThen, promiseCatch,
            RunProp.react]
        | data v => simp [Execution.trace, loaderCalls, settleEvents, promiseThen, promiseCatch,
            RunProp.react]
        | fn f =>
          simp only [Execution.trace, settleEvents, promiseThen, RunProp.react]
          cases f r with
          | returns v => simp [loaderCalls, promiseCatch]
          | throws e => simp [loaderCalls, promiseCatch, consoleError]
          | promise s => cases s <;> simp [loaderCalls, promiseCatch, consoleError]
  refine ⟨rfl, ?_, ?_⟩
  · intro hty hread
    cases b with
    | function run call => exact hfn run call
    | accessor call e => simp [runReadable, destructureRun] at hread
    | primitive p => cases p <;> simp [typeofBinding] at hty
    | undeclared => simp [typeofBinding] at hty
    | undefined => simp [typeofBinding] at hty
    | null => simp [typeofBinding] at hty
    | object run => simp [typeofBinding] at hty
    | htmlDDA run call => simp [typeofBinding] at hty
  · cases b with
    | undeclared => exact Or.inl (by decide)
    | undefined => exact Or.inl (by decide)
    | null => exact Or.inl (by decide)
    | primitive p => exact Or.inl (by rw [handler_primitive]; decide)
    | object run => exact Or.inl (by rw [handler_object]; decide)
    | function run call => exact Or.inr (hfn run call)
    | accessor call e => exact Or.inl (by rw [handler_accessor]; simp [Execution.trace, loaderCalls])
    | htmlDDA run call =>
      exact Or.inl (by
        rw [handler_undefined (.htmlDDA run call) rfl]
        simp [Execution.trace, loaderCalls])

/-- Witness of C5 (amended): a callable binding with a readable `run` whose load
is still pending. -/
theorem loader_called_once_with_fixed_path_witness :
    typeofBinding (.function (.data (.num 0)) fun _ => .promise .pending) = "function" ∧
    runReadable (.function (.data (.num 0)) fun _ => .promise .pending) = true ∧
    loaderCalls (handler (.function (.data (.num 0)) fun _ => .promise .pending)).trace
      = ["./pkg/shared_memory_bg.wasm"] :=
  ⟨rfl, rfl,
   (loader_called_once_with_fixed_path
     (.function (.data (.num 0)) fun _ => .promise .pending)).2.1 rfl rfl⟩

/-- C9: when the binding is a loader without a `run` property and the load
fulfils, nothing is invoked and nothing is logged, the body completes
normally, and the trace is just the property read, the loader call and the
settlement of the load. -/
theorem missing_entry_point_is_silent (call : String → CallOutcome) (r : Value)
    (hload : call artifactPath = .promise (.fulfilled r)) :
    runCalls (handler (.function .absent call)).trace = [] ∧
    logs (handler (.function .absent call)).trace = [] ∧
    (handler (.function .absent call)).completion = .normal ∧
    (handler (.function .absent call)).trace
      = [.readRun, .loaderCall artifactPath, .loadFulfilled r] ∧
    (handler (.function .absent call)).escaped = [] := by
  rw [handler_function, hload]
  simp [Execution.trace, Execution.escaped, runCalls, logs, settleEvents, promiseThen,
    promiseCatch, RunProp.react]

/-- Witness of C9: a loader with no `run` whose load fulfils with object 3. -/
theorem missing_entry_point_is_silent_witness :
    runCalls (handler (.function .absent fun _ => .promise (.fulfilled (.obj 3)))).trace = [] ∧
    logs (handler (.function .absent fun _ => .promise (.fulfilled (.obj 3)))).trace = [] :=
  ⟨(missing_entry_point_is_silent (fun _ => .promise (.fulfilled (.obj 3))) (.obj 3) rfl).1,
   (missing_entry_point_is_silent (fun _ => .promise (.fulfilled (.obj 3))) (.obj 3) rfl).2.1⟩

/-- C6: the execution is a function of the global state and of the responses
of the collaborators.  Two runs in which the global is undefined in both, or
is the same value in both, or is a callable in both with the same outcome of
the loader call and the same reaction of `run` to the value the load fulfils
with, take the same branch and give the same execution (same events in the
same order, same completion); the event object the listener receives plays no
part, so a direct call of the body gives that execution too. -/
theorem bootstrap_deterministic (ev1 ev2 : DomEvent) (b1 b2 : Binding)
    (h : (typeofBinding b1 = "undefined" ∧ typeofBinding b2 = "undefined") ∨ b1 = b2 ∨
      ∃ run1 call1 run2 call2, b1 = .function run1 call1 ∧ b2 = .function run2 call2 ∧
        call1 artifactPath = call2 artifactPath ∧
        ∀ r, call1 artifactPath = .promise (.fulfilled r) → run1.react r = run2.react r) :
    (typeofBinding b1 = "undefined" ↔ typeofBinding b2 = "undefined") ∧
    onLoad ev1 b1 = onLoad ev2 b2 ∧ onLoad ev1 b1 = handler b2 ∧
    loaderCalls (onLoad ev1 b1).trace = loaderCalls (handler b2).trace ∧
    runCalls (onLoad ev1 b1).trace = runCalls (handler b2).trace ∧
    logs (onLoad ev1 b1).trace = logs (handler b2).trace := by
  have key : (typeofBinding b1 = "undefined" ↔ typeofBinding b2 = "undefined") ∧
      handler b1 = handler b2 := by
    rcases h with ⟨h1, h2⟩ | rfl | ⟨run1, call1, run2, call2, rfl, rfl, hcall, hrun⟩
    · exact ⟨⟨fun _ => h2, fun _ => h1⟩, by rw [handler_undefined b1 h1, handler_undefined b2 h2]⟩
    · exact ⟨Iff.rfl, rfl⟩
    · exact ⟨Iff.rfl, handler_function_congr run1 run2 call1 call2 hcall hrun⟩
  simp only [onLoad]
  exact ⟨key.1, key.2, key.2, by rw [key.2], by rw [key.2], by rw [key.2]⟩

/-- Witness of C6: two loaders that differ away from the artifact path, and two
entry points that differ away from the loaded value, give the same execution. -/
theorem bootstrap_deterministic_witness :
    onLoad { type := "load" }
        (.function (.fn fun v => if v = .obj 1 then .returns .undefined else .throws .null)
          fun p => if p = artifactPath then .promise (.fulfilled (.obj 1)) else .throws .null)
      = handler (.function (.fn fun _ => .returns .undefined)
          fun _ => .promise (.fulfilled (.obj 1))) :=
  (bootstrap_deterministic { type := "load" } { type := "click" }
    (.function (.fn fun v => if v = .obj 1 then .returns .undefined else .throws .null)
      fun p => if p = artifactPath then .promise (.fulfilled (.obj 1)) else .throws .null)
    (.function (.fn fun _ => .returns .undefined) fun _ => .promise (.fulfilled (.obj 1)))
    (Or.inr (Or.inr ⟨_, _, _, _, rfl, rfl, rfl, fun r hr => by
      have h1 : r = .obj 1 := by
        simp only [if_pos] at hr
        injection hr with hr
        injection hr with hr
        exact hr.symm
      subst h1
      rfl⟩))).2.2.1

/-- C7 as stated fails: the listener is registered without `once` and is never
removed, so two `load` events delivered to the page run the body twice. -/
theorem two_load_events_run_body_twice :
    (pageLifetime [({ type := "load" }, .undeclared), ({ type := "load" }, .undeclared)]).length
      = 2 ∧
    ¬ ((pageLifetime [({ type := "load" }, .undeclared),
        ({ type := "load" }, .undeclared)]).length ≤ 1) := by
  decide

/-- C7 (amended): in one page lifetime the body runs exactly once for each
`load` event delivered, on the global of that moment, and never for an event
of another type; so it runs as many times as `load` events are delivered. -/
theorem body_runs_once_per_load_event (evs : List (DomEvent × Binding)) :
    pageLifetime evs
      = ((evs.filter fun p => decide (p.1.type = "load")).map fun p => handler p.2) ∧
    (pageLifetime evs).length = loadCount evs := by
  have h := deliver_on_script_window evs
  exact ⟨h, by simp [pageLifetime, h, loadCount]⟩

/-- C8 as stated fails: `null` is a value other than undefined (its `typeof`
is "object"), no diagnostic is written, but `run` is not read and the binding
is not called: the destructuring throws and the execution has no event. -/
theorem null_binding_throws_before_read :
    typeofBinding .null ≠ "undefined" ∧
    (handler .null).trace = [] ∧
    (∃ msg, (handler .null).completion = .throw (.error "TypeError" msg)) ∧
    Event.readRun ∉ (handler .null).trace ∧
    Event.loaderCall artifactPath ∉ (handler .null).trace :=
  ⟨by decide, by decide, ⟨_, rfl⟩, by decide, by decide⟩

/-- C8 (amended): the handler takes the missing-collaborator branch exactly
when `typeof` of the global is "undefined".  For every other value the
synchronous body writes no log entry; for every other value except `null` it
goes on to read `run` from the binding; and for every callable value on which
that read does not throw, whatever the `run` property is, the body is exactly
that read followed by the call of the binding with the artifact path. -/
theorem guard_tests_only_undefined (b : Binding) :
    ((handler b).sync = [.consoleError (.str notDefinedMessage)]
      ↔ typeofBinding b = "undefined") ∧
    (typeofBinding b ≠ "undefined" → logs (handler b).sync = []) ∧
    (typeofBinding b ≠ "undefined" → b ≠ .null → (handler b).sync.head? = some .readRun) ∧
    (typeofBinding b = "function" → runReadable b = true →
      (handler b).sync = [.readRun, .loaderCall artifactPath]) := by
  cases b with
  | undeclared => exact ⟨by decide, by decide, fun h => absurd rfl h, by decide⟩
  | undefined => exact ⟨by decide, by decide, fun h => absurd rfl h, by decide⟩
  | null => exact ⟨by decide, by decide, by simp, by decide⟩
  | primitive p =>
    rw [handler_primitive]
    cases p <;> simp [typeofBinding, logs]
  | object run =>
    rw [handler_object]
    simp [typeofBinding, logs]
  | function run call =>
    have hs : (handler (.function run call)).sync = [.readRun, .loaderCall artifactPath] := by
      rw [handler_function]
      cases call artifactPath <;> rfl
    rw [hs]
    simp [typeofBinding, logs]
  | accessor call e =>
    rw [handler_accessor]
    cases call <;> simp [typeofBinding, logs, runReadable, destructureRun]
  | htmlDDA run call =>
    rw [handler_undefined (.htmlDDA run call) rfl]
    simp [typeofBinding]

/-- Witness of C8 (amended): a callable binding with no `run` property. -/
theorem guard_tests_only_undefined_witness :
    typeofBinding (.function .absent fun _ => .promise .pending) ≠ "undefined" ∧
    typeofBinding (.function .absent fun _ => .promise .pending) = "function" ∧
    runReadable (.function .absent fun _ => .promise .pending) = true ∧
    logs (handler (.function .absent fun _ => .promise .pending)).sync = [] ∧
    (handler (.function .absent fun _ => .promise .pending)).sync
      = [.readRun, .loaderCall artifactPath] :=
  ⟨by decide, rfl, rfl,
   (guard_tests_only_undefined (.function .absent fun _ => .promise .pending)).2.1 (by decide),
   (guard_tests_only_undefined (.function .absent fun _ => .promise .pending)).2.2.2 rfl rfl⟩

end Bootstrap
